import Mathlib

/-!
# The UDP forwarder of netstack (`tcpip/transport/udp/forwarder.go`)

A shallow embedding of `Forwarder`, `ForwarderRequest`, `NewForwarder`,
`Forwarder.HandlePacket`, `ForwarderRequest.ID` and
`ForwarderRequest.CreateEndpoint`, with explicit state passing.

Go pointers to endpoints are references (`EpRef`) into a store of endpoint
records held by the `World`; the dispatch table of the stack and a log of the
calls made to the collaborators of `forwarder.go` are the other two parts of
the `World`.  The collaborators whose code lives outside `forwarder.go`
(`newEndpoint`, `endpoint.Close`, `endpoint.HandlePacket`, `Route.Clone`,
`Route.NICID`, `Stack.RegisterTransportEndpoint`) are modelled from the
specification and say so in their doc comments.
-/

namespace Netstack

/-! ## Data model -/

/-- A network address (`tcpip.Address`, a Go string). -/
abbrev Address := String

/-- The identifier of a network interface (`tcpip.NICID`). -/
abbrev NICID := Nat

/-- A network protocol number (`tcpip.NetworkProtocolNumber`). -/
abbrev NetworkProtocolNumber := Nat

/-- A transport protocol number (`tcpip.TransportProtocolNumber`). -/
abbrev TransportProtocolNumber := Nat

/-- The bytes of a packet (`buffer.VectorisedView`), as the list of its bytes. -/
abbrev VectorisedView := List Nat

/-- A notification sink (`*waiter.Queue`), known by its identity only. -/
abbrev Queue := Nat

/-- A pointer to an endpoint (`*endpoint`): its index in the endpoint store. -/
abbrev EpRef := Nat

/-- The flow identifier `stack.TransportEndpointID`: the 4-tuple of local
port, local address, remote port and remote address. -/
structure TransportEndpointID where
  LocalPort : Nat
  LocalAddress : Address
  RemotePort : Nat
  RemoteAddress : Address
  deriving DecidableEq, Repr, Inhabited

/-- Modelled from the spec: the failures of `*tcpip.Error` that registration
can report (spec section 7); the type `tcpip.Error` is declared outside
`forwarder.go`. -/
inductive Error where
  | RegistrationConflict
  | ResourceExhausted
  | UnsupportedProtocol
  deriving DecidableEq, Repr, Inhabited

/-- Modelled from the spec: a `stack.Route`, the directional network-path
descriptor (interface, addresses, protocol) of the glossary.  `NetProto` is
the public field read by `CreateEndpoint`; `nicID` is what the accessor
`NICID()` returns. -/
structure Route where
  NetProto : NetworkProtocolNumber
  nicID : NICID
  LocalAddress : Address
  RemoteAddress : Address
  deriving DecidableEq, Repr, Inhabited

/-- Modelled from the spec: the connection state of an endpoint (spec section
3, lifecycle "allocated unbound", "Connected", "torn down").  Only
`stateConnected` is named in `forwarder.go`. -/
inductive endpointState where
  | stateInitial
  | stateConnected
  | stateClosed
  deriving DecidableEq, Repr, Inhabited

/-- Modelled from the spec: the UDP `endpoint` record, with the attributes of
spec section 3 and the fields `forwarder.go` touches (`id`, `route`,
`dstPort`, `regNICID`, `state`, `rcvMu`, `rcvReady`, `reusePort`).  An unset
flow identifier or route is `none`; `rcvMu` is `true` while the lock is held;
`rcvList` is the queue of delivered messages. -/
structure endpoint where
  netProto : NetworkProtocolNumber
  waiterQueue : Queue
  id : Option TransportEndpointID
  route : Option Route
  dstPort : Nat
  regNICID : NICID
  state : endpointState
  rcvMu : Bool
  rcvReady : Bool
  rcvList : List VectorisedView
  reusePort : Bool
  deriving DecidableEq, Repr, Inhabited

/-- One entry of the dispatch table: the arguments of one successful
`RegisterTransportEndpoint`. -/
structure Registration where
  nicID : NICID
  netProtos : List NetworkProtocolNumber
  protocol : TransportProtocolNumber
  id : TransportEndpointID
  ep : EpRef
  reusePort : Bool
  deriving DecidableEq, Repr, Inhabited

/-- The dispatch table of the stack: the registrations made so far, oldest
first. -/
abbrev Table := List Registration

/-- A call made to a collaborator of `forwarder.go`, as logged in the world. -/
inductive Event where
  | newEndpoint (ep : EpRef) (netProto : NetworkProtocolNumber) (queue : Queue)
  | register (nicID : NICID) (netProtos : List NetworkProtocolNumber)
      (protocol : TransportProtocolNumber) (id : TransportEndpointID) (ep : EpRef)
      (reusePort : Bool) (err : Option Error)
  | close (ep : EpRef)
  | clone (r : Route)
  | handlePacket (ep : EpRef) (r : Route) (id : TransportEndpointID) (vv : VectorisedView)
  deriving DecidableEq, Repr, Inhabited

/-- The mutable state `forwarder.go` acts on: the store of allocated endpoints
(an `EpRef` is an index into it), the dispatch table of the stack, and the log
of the calls made to collaborators. -/
structure World where
  eps : List endpoint
  table : Table
  trace : List Event
  deriving DecidableEq, Repr, Inhabited

/-- Modelled from the spec: the `*stack.Stack` handle.  The stack's code is
outside `forwarder.go`; the one method `forwarder.go` calls on it,
`RegisterTransportEndpoint`, is taken as a parameter: `register` maps the
table and the six arguments to the new table, or to the error.  A failed
registration yields no table: the insert is atomic (spec section 6,
"atomic insert-or-fail"). -/
structure Stack where
  register : Table → NICID → List NetworkProtocolNumber → TransportProtocolNumber →
    TransportEndpointID → EpRef → Bool → Except Error Table

/-- Modelled from the spec: `ProtocolNumber`, the UDP transport protocol
number; the constant is declared outside `forwarder.go` (UDP is protocol 17). -/
def ProtocolNumber : TransportProtocolNumber := 17

/-! ## The world: endpoint store and call log -/

/-- Read the endpoint record behind a reference. -/
def World.deref (w : World) (ep : EpRef) : endpoint :=
  w.eps.getD ep default

/-- Write through a reference: apply `f` to the endpoint record behind it. -/
def World.update (w : World) (ep : EpRef) (f : endpoint → endpoint) : World :=
  { w with eps := w.eps.modify f ep }

/-- Append one call to the log. -/
def World.emit (w : World) (e : Event) : World :=
  { w with trace := w.trace ++ [e] }

/-! ## Collaborators of `forwarder.go` -/

/-- Modelled from the spec: `newEndpoint(stack, netProto, waiterQueue)`, the
endpoint construction contract of spec section 6: a new, unbound endpoint for
the given network protocol and notification sink.  Nothing is bound, the
state is the initial one, the receive-ready guard and the shared-binding flag
are off, and nothing has been delivered. -/
def newEndpoint (_stack : Stack) (netProto : NetworkProtocolNumber) (waiterQueue : Queue)
    (w : World) : EpRef × World :=
  let ep := w.eps.length
  (ep, { w with
    eps := w.eps ++ [{ netProto := netProto, waiterQueue := waiterQueue,
                       id := none, route := none, dstPort := 0, regNICID := 0,
                       state := endpointState.stateInitial, rcvMu := false,
                       rcvReady := false, rcvList := [], reusePort := false }],
    trace := w.trace ++ [Event.newEndpoint ep netProto waiterQueue] })

/-- Modelled from the spec: `Stack.RegisterTransportEndpoint(nicID, netProtos,
protocol, id, ep, reusePort)`: one attempt to register, logged with its
outcome; on success the table is the one the stack's `register` yields, on
failure the table is left as it was and the error is returned. -/
def Stack.RegisterTransportEndpoint (s : Stack) (nicID : NICID)
    (netProtos : List NetworkProtocolNumber) (protocol : TransportProtocolNumber)
    (id : TransportEndpointID) (ep : EpRef) (reusePort : Bool) (w : World) :
    Option Error × World :=
  match s.register w.table nicID netProtos protocol id ep reusePort with
  | Except.ok t =>
    (none, { w with table := t,
                    trace := w.trace ++ [Event.register nicID netProtos protocol id ep reusePort none] })
  | Except.error err =>
    (some err, w.emit (Event.register nicID netProtos protocol id ep reusePort (some err)))

/-- Modelled from the spec: the accessor `Route.NICID()`, the owning interface
id of the route. -/
def Route.NICID (r : Route) : NICID := r.nicID

/-- Modelled from the spec: `Route.Clone()`, a copy of the route with a
lifetime of its own; the call is logged. -/
def Route.Clone (r : Route) (w : World) : Route × World :=
  (r, w.emit (Event.clone r))

/-- Modelled from the spec: `endpoint.Close()` on an endpoint that was never
registered: the endpoint is released (its state becomes closed), nothing else
is touched; the call is logged. -/
def endpoint.Close (ep : EpRef) (w : World) : World :=
  (w.update ep (fun e => { e with state := endpointState.stateClosed })).emit (Event.close ep)

/-- Modelled from the spec: `endpoint.HandlePacket(r, id, vv)`, the normal
packet-handling entry point of an endpoint: the call is logged, and the
payload is queued as the next delivered message when the receive-ready guard
is on (a packet for an endpoint that is not ready is dropped). -/
def endpoint.HandlePacket (ep : EpRef) (r : Route) (id : TransportEndpointID)
    (vv : VectorisedView) (w : World) : World :=
  let w := w.emit (Event.handlePacket ep r id vv)
  if (w.deref ep).rcvReady then
    w.update ep (fun e => { e with rcvList := e.rcvList ++ [vv] })
  else w

/-! ## `forwarder.go` -/

/-- ForwarderRequest represents a stream request received by the forwarder and
passed to the client (source lines 47-52). -/
structure ForwarderRequest where
  stack : Stack
  route : Route
  id : TransportEndpointID
  vv : VectorisedView

/-- Forwarder is a stream request forwarder (source lines 15-19).  The handler
is a Go function value: any transformation of the world, given the request. -/
structure Forwarder where
  handler : ForwarderRequest → World → World
  stack : Stack

/-- NewForwarder allocates and initializes a new forwarder (source lines
22-27). -/
def NewForwarder (s : Stack) (handler : ForwarderRequest → World → World) : Forwarder :=
  { stack := s, handler := handler }

/-- HandlePacket handles all packets (source lines 33-42): it calls the
handler on a request built from its arguments, then returns true. -/
def Forwarder.HandlePacket (f : Forwarder) (r : Route) (id : TransportEndpointID)
    (vv : VectorisedView) (w : World) : Bool × World :=
  let w := f.handler { stack := f.stack, route := r, id := id, vv := vv } w
  (true, w)

/-- ID returns the 4-tuple that represents the stream request (source lines
56-58). -/
def ForwarderRequest.ID (r : ForwarderRequest) : TransportEndpointID :=
  r.id

/-- CreateEndpoint creates a connected UDP endpoint for the stream request
(source lines 61-82).  The Go result pair `(ep, nil)` is `Except.ok ep`, and
`(nil, err)` is `Except.error err`. -/
def ForwarderRequest.CreateEndpoint (r : ForwarderRequest) (queue : Queue) (w : World) :
    Except Error EpRef × World :=
  let (ep, w) := newEndpoint r.stack r.route.NetProto queue w
  match r.stack.RegisterTransportEndpoint r.route.NICID [r.route.NetProto] ProtocolNumber
      r.id ep (w.deref ep).reusePort w with
  | (some err, w) =>
    let w := endpoint.Close ep w
    (Except.error err, w)
  | (none, w) =>
    let w := w.update ep (fun e => { e with id := some r.id })
    let (rt, w) := r.route.Clone w
    let w := w.update ep (fun e => { e with route := some rt })
    let w := w.update ep (fun e => { e with dstPort := r.id.RemotePort })
    let w := w.update ep (fun e => { e with regNICID := r.route.NICID })
    let w := w.update ep (fun e => { e with state := endpointState.stateConnected })
    let w := w.update ep (fun e => { e with rcvMu := true })
    let w := w.update ep (fun e => { e with rcvReady := true })
    let w := w.update ep (fun e => { e with rcvMu := false })
    let w := endpoint.HandlePacket ep r.route r.id r.vv w
    (Except.ok ep, w)

/-- The registration attempt of `CreateEndpoint` (source lines 62-63): the
endpoint is allocated, then registered; the result is the error of the
registration (`none` for the Go `nil`) and the world right after it. -/
def ForwarderRequest.registration (r : ForwarderRequest) (queue : Queue) (w : World) :
    Option Error × World :=
  let (ep, w) := newEndpoint r.stack r.route.NetProto queue w
  r.stack.RegisterTransportEndpoint r.route.NICID [r.route.NetProto] ProtocolNumber
    r.id ep (w.deref ep).reusePort w

/-! ## `CreateEndpoint` statement by statement -/

/-- A program point of `CreateEndpoint`: `Lnn` is "source line nn is the next
to run", `Ret` is "the call has returned". -/
inductive Line where
  | L62 | L63 | L64 | L65 | L68 | L69 | L70 | L71 | L73 | L75 | L76 | L77 | L79 | L81 | Ret
  deriving DecidableEq, Repr, Inhabited

/-- The local variables of one call of `CreateEndpoint`: the program point,
the pointer `ep` (meaningless before line 62 has run) and the error `err` of
line 63. -/
structure Frame where
  line : Line
  ep : EpRef
  err : Option Error
  deriving DecidableEq, Repr, Inhabited

/-- The frame of a call that has not run any statement yet. -/
def Frame.start : Frame := { line := Line.L62, ep := 0, err := none }

/-- The value a returned call hands to its caller; `none` while the call is
still running. -/
def Frame.result (f : Frame) : Option (Except Error EpRef) :=
  match f.line, f.err with
  | Line.Ret, some err => some (Except.error err)
  | Line.Ret, none => some (Except.ok f.ep)
  | _, _ => none

/-- One statement of `CreateEndpoint` (source lines 62-81), run from the
program point of the frame. -/
def ForwarderRequest.step (r : ForwarderRequest) (queue : Queue) (f : Frame) (w : World) :
    Frame × World :=
  match f.line with
  | Line.L62 =>
    let (ep, w) := newEndpoint r.stack r.route.NetProto queue w
    ({ f with line := Line.L63, ep := ep }, w)
  | Line.L63 =>
    match r.stack.RegisterTransportEndpoint r.route.NICID [r.route.NetProto] ProtocolNumber
        r.id f.ep (w.deref f.ep).reusePort w with
    | (some err, w) => ({ f with line := Line.L64, err := some err }, w)
    | (none, w) => ({ f with line := Line.L68 }, w)
  | Line.L64 => ({ f with line := Line.L65 }, endpoint.Close f.ep w)
  | Line.L65 => ({ f with line := Line.Ret }, w)
  | Line.L68 => ({ f with line := Line.L69 }, w.update f.ep (fun e => { e with id := some r.id }))
  | Line.L69 =>
    let (rt, w) := r.route.Clone w
    ({ f with line := Line.L70 }, w.update f.ep (fun e => { e with route := some rt }))
  | Line.L70 =>
    ({ f with line := Line.L71 }, w.update f.ep (fun e => { e with dstPort := r.id.RemotePort }))
  | Line.L71 =>
    ({ f with line := Line.L73 }, w.update f.ep (fun e => { e with regNICID := r.route.NICID }))
  | Line.L73 =>
    ({ f with line := Line.L75 },
      w.update f.ep (fun e => { e with state := endpointState.stateConnected }))
  | Line.L75 => ({ f with line := Line.L76 }, w.update f.ep (fun e => { e with rcvMu := true }))
  | Line.L76 => ({ f with line := Line.L77 }, w.update f.ep (fun e => { e with rcvReady := true }))
  | Line.L77 => ({ f with line := Line.L79 }, w.update f.ep (fun e => { e with rcvMu := false }))
  | Line.L79 => ({ f with line := Line.L81 }, endpoint.HandlePacket f.ep r.route r.id r.vv w)
  | Line.L81 => ({ f with line := Line.Ret }, w)
  | Line.Ret => (f, w)

/-- Run `n` statements of one call, one after the other. -/
def ForwarderRequest.run (r : ForwarderRequest) (queue : Queue) :
    Nat → Frame × World → Frame × World
  | 0, c => c
  | n + 1, c => ForwarderRequest.run r queue n (r.step queue c.1 c.2)

/-- An endpoint whose flow identifier, route, destination port, interface id
and state are those `CreateEndpoint` binds for the request `r`. -/
def endpoint.boundTo (e : endpoint) (r : ForwarderRequest) : Prop :=
  e.id = some r.id ∧ e.route = some r.route ∧ e.dstPort = r.id.RemotePort ∧
    e.regNICID = r.route.NICID ∧ e.state = endpointState.stateConnected

/-- An endpoint none of whose fields has been bound by an activation step: no
flow identifier, no route, no destination port, no interface id, not
connected, guard off, nothing delivered. -/
def endpoint.unbound (e : endpoint) : Prop :=
  e.id = none ∧ e.route = none ∧ e.dstPort = 0 ∧ e.regNICID = 0 ∧
    e.state ≠ endpointState.stateConnected ∧ e.rcvReady = false ∧ e.rcvList = []

/-- Whether a logged call is a call of an endpoint's `HandlePacket`. -/
def Event.isHandlePacket : Event → Bool
  | Event.handlePacket _ _ _ _ => true
  | _ => false

/-- Whether a logged call is a registration attempt. -/
def Event.isRegister : Event → Bool
  | Event.register _ _ _ _ _ _ _ => true
  | _ => false

/-- Whether a logged call is a call of an endpoint's `Close`. -/
def Event.isClose : Event → Bool
  | Event.close _ => true
  | _ => false

/-- The calls logged on the way from the world `w` to the later world
`w1`, oldest first. -/
def World.since (w1 w : World) : List Event :=
  w1.trace.drop w.trace.length

/-! ## Decision callbacks -/

/-- What a decision callback does with the request it is given, as far as
`forwarder.go` is concerned: it ignores the request, or it calls
`CreateEndpoint` with some notification sink and goes on from the result
(possibly calling `CreateEndpoint` again). -/
inductive Decision where
  | ignore : Decision
  | accept (queue : Queue) (next : Except Error EpRef → Decision) : Decision

/-- Run a decision on a request. -/
def Decision.run : Decision → ForwarderRequest → World → World
  | Decision.ignore, _, w => w
  | Decision.accept queue next, r, w =>
    Decision.run (next (r.CreateEndpoint queue w).1) r (r.CreateEndpoint queue w).2

/-- The handler of a decision policy: the callback that does what the policy
says for the request. -/
def policy (p : ForwarderRequest → Decision) : ForwarderRequest → World → World :=
  fun r w => (p r).run r w

/-! ## The dispatch table as atomic insert-or-fail -/

/-- Whether the key (transport protocol number, flow identifier) is owned by
an entry of the table. -/
def claimed (t : Table) (protocol : TransportProtocolNumber) (id : TransportEndpointID) :
    Bool :=
  t.any (fun e => decide (e.protocol = protocol ∧ e.id = id))

/-- Modelled from the spec: the dispatch table's registration as an atomic
insert-or-fail keyed by (transport protocol number, flow identifier), spec
sections 6 and 9: when the key is already owned by an endpoint and shared
binding is not permitted the registration fails with `RegistrationConflict`
(spec section 7) and inserts nothing; otherwise the entry is inserted. -/
def atomicRegister (t : Table) (nicID : NICID) (netProtos : List NetworkProtocolNumber)
    (protocol : TransportProtocolNumber) (id : TransportEndpointID) (ep : EpRef)
    (reusePort : Bool) : Except Error Table :=
  if claimed t protocol id && !reusePort then Except.error Error.RegistrationConflict
  else Except.ok (t ++ [{ nicID := nicID, netProtos := netProtos, protocol := protocol,
                           id := id, ep := ep, reusePort := reusePort }])

/-- Modelled from the spec: a stack whose dispatch table is the atomic
insert-or-fail table. -/
def atomicStack : Stack := { register := atomicRegister }

/-- The table entry that `CreateEndpoint` asks the stack to insert for the
endpoint `ep` (the arguments of source line 63, with the shared-binding flag
of a newly allocated endpoint). -/
def ForwarderRequest.entry (r : ForwarderRequest) (ep : EpRef) : Registration :=
  { nicID := r.route.NICID, netProtos := [r.route.NetProto], protocol := ProtocolNumber,
    id := r.id, ep := ep, reusePort := false }

/-! ## Concurrent calls of `CreateEndpoint`

Several calls run on one shared world; a schedule says which call runs its
next statement.  Each statement of `CreateEndpoint` is one atomic step, so the
registration of line 63 is one atomic test-and-set on the table. -/

/-- One of several concurrent calls of `CreateEndpoint`: its request, its
notification sink, and the frame of the call. -/
structure Call where
  req : ForwarderRequest
  queue : Queue
  frame : Frame

/-- Concurrent calls and the world they share. -/
structure System where
  calls : List Call
  world : World

/-- The system in which no call has run a statement yet. -/
def System.init (reqs : List (ForwarderRequest × Queue)) (w : World) : System :=
  { calls := reqs.map (fun rq => { req := rq.1, queue := rq.2, frame := Frame.start }),
    world := w }

/-- The call at position `i` runs its next statement (nothing happens when
there is no such call). -/
def System.stepAt (s : System) (i : Nat) : System :=
  match s.calls[i]? with
  | none => s
  | some c =>
    { calls := s.calls.set i { c with frame := (c.req.step c.queue c.frame s.world).1 },
      world := (c.req.step c.queue c.frame s.world).2 }

/-- Run a schedule: the list of the positions of the calls that run their
next statement, in order. -/
def System.exec (s : System) : List Nat → System
  | [] => s
  | i :: sched => System.exec (s.stepAt i) sched

/-- Whether the call has returned an endpoint and no error. -/
def Call.succeeded (c : Call) : Bool :=
  match c.frame.result with
  | some (Except.ok _) => true
  | _ => false

/-- An upper bound on the number of statements a call still has to run. -/
def Line.left : Line → Nat
  | Line.L62 => 12
  | Line.L63 => 11
  | Line.L64 => 2
  | Line.L65 => 1
  | Line.L68 => 10
  | Line.L69 => 9
  | Line.L70 => 8
  | Line.L71 => 7
  | Line.L73 => 6
  | Line.L75 => 5
  | Line.L76 => 4
  | Line.L77 => 3
  | Line.L79 => 2
  | Line.L81 => 1
  | Line.Ret => 0

/-- A frame whose registration has succeeded. -/
def Frame.won (f : Frame) : Prop :=
  f.err = none ∧ f.line ≠ Line.L62 ∧ f.line ≠ Line.L63

/-- A frame as the atomic table can make it: either no error and not on the
failure branch, or `RegistrationConflict` and on the failure branch. -/
def Frame.wf (f : Frame) : Prop :=
  (f.err = none ∧ f.line ≠ Line.L64 ∧ f.line ≠ Line.L65) ∨
  (f.err = some Error.RegistrationConflict ∧
    (f.line = Line.L64 ∨ f.line = Line.L65 ∨ f.line = Line.Ret))

/-- The invariant of concurrent calls on the atomic table that collide on the
flow identifier `id`, started in the world `w0` where `id` was unclaimed. -/
structure Inv (id : TransportEndpointID) (w0 : World) (s : System) : Prop where
  reqs : ∀ (j : Nat) (c : Call), s.calls[j]? = some c → c.req.stack = atomicStack ∧ c.req.id = id
  wf : ∀ (j : Nat) (c : Call), s.calls[j]? = some c → c.frame.wf
  bound : ∀ (j : Nat) (c : Call), s.calls[j]? = some c → c.frame.line ≠ Line.L62 →
    c.frame.ep < s.world.eps.length
  distinct : ∀ (i j : Nat) (ci cj : Call), s.calls[i]? = some ci → s.calls[j]? = some cj → i ≠ j →
    ci.frame.line ≠ Line.L62 → cj.frame.line ≠ Line.L62 → ci.frame.ep ≠ cj.frame.ep
  flag : ∀ ep : EpRef, w0.eps.length ≤ ep → (s.world.deref ep).reusePort = false
  len : w0.eps.length ≤ s.world.eps.length
  table :
    (s.world.table = w0.table ∧
      ∀ (j : Nat) (c : Call), s.calls[j]? = some c → ¬ c.frame.won ∧ c.frame.err = none) ∨
    (∃ (i : Nat) (c : Call), s.calls[i]? = some c ∧ c.frame.won ∧
      s.world.table = w0.table ++ [c.req.entry c.frame.ep] ∧
      ∀ (j : Nat) (cj : Call), s.calls[j]? = some cj → j ≠ i → ¬ cj.frame.won)
  closed : ∀ (j : Nat) (c : Call), s.calls[j]? = some c → c.frame.err ≠ none →
    (c.frame.line = Line.L65 ∨ c.frame.line = Line.Ret) →
    (s.world.deref c.frame.ep).state = endpointState.stateClosed
  fresh : ∀ (j : Nat) (c : Call), s.calls[j]? = some c → c.frame.line ≠ Line.L62 →
    w0.eps.length ≤ c.frame.ep

/-! ## A concrete scenario

The scenario of spec section 8: one datagram from (A, 1000) to (B, 53). -/

/-- The route of the scenario: IPv4 (2048) on interface 1, from A to B. -/
def scenarioRoute : Route :=
  { NetProto := 2048, nicID := 1, LocalAddress := "B", RemoteAddress := "A" }

/-- The flow identifier of the scenario. -/
def scenarioID : TransportEndpointID :=
  { LocalPort := 53, LocalAddress := "B", RemotePort := 1000, RemoteAddress := "A" }

/-- The request of the scenario, on the atomic insert-or-fail stack, with a
two-byte payload. -/
def scenarioRequest : ForwarderRequest :=
  { stack := atomicStack, route := scenarioRoute, id := scenarioID, vv := [104, 105] }

/-- A world with no endpoint, no registration and no logged call. -/
def emptyWorld : World := { eps := [], table := [], trace := [] }

/-- The world after the scenario's request has been accepted once. -/
def busyWorld : World := (scenarioRequest.CreateEndpoint 7 emptyWorld).2

/-- A schedule for two concurrent calls: they take turns, twelve statements
each. -/
def raceSchedule : List Nat :=
  [0, 1, 0, 1, 0, 1, 0, 1, 0, 1, 0, 1, 0, 1, 0, 1, 0, 1, 0, 1, 0, 1, 0, 1]

/-- A schedule for two concurrent calls that both fail: they take turns, four
statements each (lines 62, 63, 64 and 65). -/
def conflictSchedule : List Nat := [0, 1, 0, 1, 0, 1, 0, 1]

/-- Two concurrent calls for the scenario's flow, started in the world `w`. -/
def raceSystem (w : World) : System :=
  System.init [(scenarioRequest, 7), (scenarioRequest, 9)] w

/-! ## Lemmas on the endpoint store -/

theorem modify_append_length {α : Type} (l : List α) (a : α) (f : α → α) :
    (l ++ [a]).modify f l.length = l ++ [f a] := by
  induction l with
  | nil => rfl
  | cons x xs ih => simpa using ih

theorem deref_append_length (eps : List endpoint) (e : endpoint) (t : Table) (tr : List Event) :
    World.deref { eps := eps ++ [e], table := t, trace := tr } eps.length = e := by
  simp [World.deref]

theorem update_append_length (eps : List endpoint) (e : endpoint) (t : Table) (tr : List Event)
    (f : endpoint → endpoint) :
    World.update { eps := eps ++ [e], table := t, trace := tr } eps.length f
      = { eps := eps ++ [f e], table := t, trace := tr } := by
  simp [World.update, modify_append_length]

/-! ## Running `CreateEndpoint` statement by statement -/

theorem step_ret (r : ForwarderRequest) (q : Queue) (f : Frame) (w : World)
    (h : f.line = Line.Ret) : r.step q f w = (f, w) := by
  simp [ForwarderRequest.step, h]

theorem run_ret (r : ForwarderRequest) (q : Queue) (n : Nat) (f : Frame) (w : World)
    (h : f.line = Line.Ret) : r.run q n (f, w) = (f, w) := by
  induction n with
  | zero => rfl
  | succ k ih => simp [ForwarderRequest.run, step_ret r q f w h, ih]

theorem run_add (r : ForwarderRequest) (q : Queue) (m n : Nat) (c : Frame × World) :
    r.run q (m + n) c = r.run q n (r.run q m c) := by
  induction m generalizing c with
  | zero => simp [ForwarderRequest.run]
  | succ k ih => rw [Nat.succ_add]; simp [ForwarderRequest.run, ih]

/-! ## `CreateEndpoint` in closed form -/

/-- The record of a newly allocated endpoint. -/
theorem newEndpoint_eq (s : Stack) (p : NetworkProtocolNumber) (q : Queue) (w : World) :
    newEndpoint s p q w = (w.eps.length,
      { eps := w.eps ++ [{ netProto := p, waiterQueue := q, id := none, route := none,
                           dstPort := 0, regNICID := 0, state := endpointState.stateInitial,
                           rcvMu := false, rcvReady := false, rcvList := [],
                           reusePort := false }],
        table := w.table,
        trace := w.trace ++ [Event.newEndpoint w.eps.length p q] }) := rfl

/-- The registration attempt, in terms of the stack's `register`. -/
theorem registration_fst (r : ForwarderRequest) (q : Queue) (w : World) :
    (r.registration q w).1 =
      match r.stack.register w.table r.route.nicID [r.route.NetProto] ProtocolNumber r.id
          w.eps.length false with
      | Except.ok _ => none
      | Except.error err => some err := by
  simp only [ForwarderRequest.registration, newEndpoint_eq, deref_append_length,
    Stack.RegisterTransportEndpoint, Route.NICID]
  cases r.stack.register w.table r.route.nicID [r.route.NetProto] ProtocolNumber r.id
    w.eps.length false <;> rfl

/-- The whole effect of a call whose registration succeeds with table `t`. -/
theorem CreateEndpoint_of_ok (r : ForwarderRequest) (q : Queue) (w : World) (t : Table)
    (h : r.stack.register w.table r.route.nicID [r.route.NetProto] ProtocolNumber r.id
      w.eps.length false = Except.ok t) :
    r.CreateEndpoint q w = (Except.ok w.eps.length,
      { eps := w.eps ++ [{ netProto := r.route.NetProto, waiterQueue := q, id := some r.id,
                           route := some r.route, dstPort := r.id.RemotePort,
                           regNICID := r.route.nicID,
                           state := endpointState.stateConnected, rcvMu := false,
                           rcvReady := true, rcvList := [r.vv], reusePort := false }],
        table := t,
        trace := w.trace ++ [Event.newEndpoint w.eps.length r.route.NetProto q,
          Event.register r.route.nicID [r.route.NetProto] ProtocolNumber r.id w.eps.length
            false none,
          Event.clone r.route,
          Event.handlePacket w.eps.length r.route r.id r.vv] }) := by
  simp [ForwarderRequest.CreateEndpoint, newEndpoint_eq, deref_append_length,
    Stack.RegisterTransportEndpoint, Route.NICID, h, update_append_length, Route.Clone,
    World.emit, endpoint.HandlePacket]

/-- The whole effect of a call whose registration fails with error `err`. -/
theorem CreateEndpoint_of_error (r : ForwarderRequest) (q : Queue) (w : World) (err : Error)
    (h : r.stack.register w.table r.route.nicID [r.route.NetProto] ProtocolNumber r.id
      w.eps.length false = Except.error err) :
    r.CreateEndpoint q w = (Except.error err,
      { eps := w.eps ++ [{ netProto := r.route.NetProto, waiterQueue := q, id := none,
                           route := none, dstPort := 0, regNICID := 0,
                           state := endpointState.stateClosed, rcvMu := false,
                           rcvReady := false, rcvList := [], reusePort := false }],
        table := w.table,
        trace := w.trace ++ [Event.newEndpoint w.eps.length r.route.NetProto q,
          Event.register r.route.nicID [r.route.NetProto] ProtocolNumber r.id w.eps.length
            false (some err),
          Event.close w.eps.length] }) := by
  simp [ForwarderRequest.CreateEndpoint, newEndpoint_eq, deref_append_length,
    Stack.RegisterTransportEndpoint, Route.NICID, h, update_append_length,
    World.emit, endpoint.Close]

theorem registration_eq_none (r : ForwarderRequest) (q : Queue) (w : World)
    (h : (r.registration q w).1 = none) :
    ∃ t, r.stack.register w.table r.route.nicID [r.route.NetProto] ProtocolNumber r.id
      w.eps.length false = Except.ok t := by
  rw [registration_fst] at h
  cases hr : r.stack.register w.table r.route.nicID [r.route.NetProto] ProtocolNumber r.id
    w.eps.length false with
  | ok t => exact ⟨t, rfl⟩
  | error err => rw [hr] at h; cases h

theorem registration_eq_some (r : ForwarderRequest) (q : Queue) (w : World) (err : Error)
    (h : (r.registration q w).1 = some err) :
    r.stack.register w.table r.route.nicID [r.route.NetProto] ProtocolNumber r.id
      w.eps.length false = Except.error err := by
  rw [registration_fst] at h
  cases hr : r.stack.register w.table r.route.nicID [r.route.NetProto] ProtocolNumber r.id
    w.eps.length false with
  | ok t => rw [hr] at h; cases h
  | error e => rw [hr] at h; cases h; rfl

theorem run_14_ok (r : ForwarderRequest) (q : Queue) (w : World) (t : Table)
    (h : r.stack.register w.table r.route.nicID [r.route.NetProto] ProtocolNumber r.id
      w.eps.length false = Except.ok t) :
    r.run q 14 (Frame.start, w)
      = ({ line := Line.Ret, ep := w.eps.length, err := none }, (r.CreateEndpoint q w).2) := by
  rw [CreateEndpoint_of_ok r q w t h]
  simp [ForwarderRequest.run, ForwarderRequest.step, Frame.start, newEndpoint_eq,
    deref_append_length, Stack.RegisterTransportEndpoint, Route.NICID, h, update_append_length,
    Route.Clone, World.emit, endpoint.HandlePacket]

theorem run_14_error (r : ForwarderRequest) (q : Queue) (w : World) (err : Error)
    (h : r.stack.register w.table r.route.nicID [r.route.NetProto] ProtocolNumber r.id
      w.eps.length false = Except.error err) :
    r.run q 14 (Frame.start, w)
      = ({ line := Line.Ret, ep := w.eps.length, err := some err },
          (r.CreateEndpoint q w).2) := by
  rw [CreateEndpoint_of_error r q w err h]
  simp [ForwarderRequest.run, ForwarderRequest.step, Frame.start, newEndpoint_eq,
    deref_append_length, Stack.RegisterTransportEndpoint, Route.NICID, h, update_append_length,
    World.emit, endpoint.Close]

theorem run_ge_14 (r : ForwarderRequest) (q : Queue) (w : World) (n : Nat) (hn : 14 ≤ n) :
    r.run q n (Frame.start, w) = r.run q 14 (Frame.start, w) := by
  obtain ⟨k, rfl⟩ := Nat.exists_eq_add_of_le hn
  rw [run_add]
  cases h : r.stack.register w.table r.route.nicID [r.route.NetProto] ProtocolNumber r.id
      w.eps.length false with
  | ok t => rw [run_14_ok r q w t h]; exact run_ret r q k _ _ rfl
  | error err => rw [run_14_error r q w err h]; exact run_ret r q k _ _ rfl

/-- Running a call for fourteen steps (twelve statements on the success path,
four on the failure path) is `CreateEndpoint`: the frame has returned with the
result of `CreateEndpoint`, in the world it leaves. -/
theorem run_14_eq_CreateEndpoint (r : ForwarderRequest) (q : Queue) (w : World) :
    (r.run q 14 (Frame.start, w)).1.result = some (r.CreateEndpoint q w).1 ∧
      (r.run q 14 (Frame.start, w)).2 = (r.CreateEndpoint q w).2 := by
  cases h : r.stack.register w.table r.route.nicID [r.route.NetProto] ProtocolNumber r.id
      w.eps.length false with
  | ok t =>
    rw [run_14_ok r q w t h]
    simp [Frame.result, CreateEndpoint_of_ok r q w t h]
  | error err =>
    rw [run_14_error r q w err h]
    simp [Frame.result, CreateEndpoint_of_error r q w err h]

theorem since_append (eps : List endpoint) (t : Table) (w : World) (l : List Event) :
    World.since { eps := eps, table := t, trace := w.trace ++ l } w = l := by
  simp [World.since]

/-! ## The atomic insert-or-fail table -/

theorem claimed_append (t : Table) (e : Registration) (p : TransportProtocolNumber)
    (id : TransportEndpointID) :
    claimed (t ++ [e]) p id = (claimed t p id || decide (e.protocol = p ∧ e.id = id)) := by
  simp [claimed]

theorem not_claimed_forall (t : Table) (p : TransportProtocolNumber)
    (id : TransportEndpointID) (h : claimed t p id = false) :
    ∀ a ∈ t, a.protocol = p → ¬ a.id = id := by
  intro a ha
  have := List.any_eq_false.mp h a ha
  simpa using this

theorem atomic_register_fresh (r : ForwarderRequest) (t : Table) (ep : EpRef)
    (hs : r.stack = atomicStack) (h : claimed t ProtocolNumber r.id = false) :
    r.stack.register t r.route.nicID [r.route.NetProto] ProtocolNumber r.id ep false
      = Except.ok (t ++ [r.entry ep]) := by
  simp [hs, atomicStack, atomicRegister, h, ForwarderRequest.entry, Route.NICID]

theorem atomic_register_claimed (r : ForwarderRequest) (t : Table) (ep : EpRef)
    (hs : r.stack = atomicStack) (h : claimed t ProtocolNumber r.id = true) :
    r.stack.register t r.route.nicID [r.route.NetProto] ProtocolNumber r.id ep false
      = Except.error Error.RegistrationConflict := by
  simp [hs, atomicStack, atomicRegister, h]

/-! ## The claims -/

/-- C1: when the registration into the dispatch table succeeds, CreateEndpoint
returns the new endpoint and no error, and that endpoint has the request's
flow identifier as its id, a clone of the request's route as its route, the
flow identifier's RemotePort as its dstPort, the route's NIC id as its
regNICID, the state stateConnected, and the rcvReady flag on. -/
theorem CreateEndpoint_success (r : ForwarderRequest) (queue : Queue) (w : World)
    (h : (r.registration queue w).1 = none) :
    (r.CreateEndpoint queue w).1 = Except.ok w.eps.length ∧
    ((r.CreateEndpoint queue w).2.deref w.eps.length).id = some r.ID ∧
    (∀ v : World,
      ((r.CreateEndpoint queue w).2.deref w.eps.length).route = some (r.route.Clone v).1) ∧
    ((r.CreateEndpoint queue w).2.deref w.eps.length).dstPort = r.ID.RemotePort ∧
    ((r.CreateEndpoint queue w).2.deref w.eps.length).regNICID = r.route.NICID ∧
    ((r.CreateEndpoint queue w).2.deref w.eps.length).state = endpointState.stateConnected ∧
    ((r.CreateEndpoint queue w).2.deref w.eps.length).rcvReady = true := by
  obtain ⟨t, ht⟩ := registration_eq_none r queue w h
  rw [CreateEndpoint_of_ok r queue w t ht]
  simp [deref_append_length, ForwarderRequest.ID, Route.Clone, Route.NICID]

/-- Witness of C1: the scenario's request on the empty world, where the
registration succeeds. -/
theorem CreateEndpoint_success_witness :
    (scenarioRequest.registration 7 emptyWorld).1 = none ∧
    (scenarioRequest.CreateEndpoint 7 emptyWorld).1 = Except.ok 0 ∧
    ((scenarioRequest.CreateEndpoint 7 emptyWorld).2.deref 0).id = some scenarioID ∧
    ((scenarioRequest.CreateEndpoint 7 emptyWorld).2.deref 0).rcvReady = true :=
  ⟨by decide, (CreateEndpoint_success scenarioRequest 7 emptyWorld (by decide)).1,
    (CreateEndpoint_success scenarioRequest 7 emptyWorld (by decide)).2.1,
    (CreateEndpoint_success scenarioRequest 7 emptyWorld (by decide)).2.2.2.2.2.2⟩

/-- C2: when the registration into the dispatch table fails with error err,
CreateEndpoint returns exactly that error and no endpoint; the endpoint it
allocated is closed (one Close call, on that endpoint) and the endpoints that
existed before are as they were; the dispatch table is unchanged; and no
activation step is performed: in every state the call goes through, the
allocated endpoint has no field bound and its rcvReady flag is off, and no
endpoint has been handed the payload. -/
theorem CreateEndpoint_failure (r : ForwarderRequest) (queue : Queue) (w : World) (err : Error)
    (h : (r.registration queue w).1 = some err) :
    (r.CreateEndpoint queue w).1 = Except.error err ∧
    (r.CreateEndpoint queue w).2.table = w.table ∧
    (r.CreateEndpoint queue w).2.eps.take w.eps.length = w.eps ∧
    (r.CreateEndpoint queue w).2.eps.length = w.eps.length + 1 ∧
    ((r.CreateEndpoint queue w).2.deref w.eps.length).state = endpointState.stateClosed ∧
    ((r.CreateEndpoint queue w).2.since w).filter Event.isClose = [Event.close w.eps.length] ∧
    (∀ (n : Nat) (e : endpoint),
      (r.run queue n (Frame.start, w)).2.eps[w.eps.length]? = some e → e.unbound) ∧
    (∀ n : Nat,
      ((r.run queue n (Frame.start, w)).2.since w).any Event.isHandlePacket = false) := by
  have hr := registration_eq_some r queue w err h
  have key : ∀ m, m ≤ 14 →
      (∀ e : endpoint,
        (r.run queue m (Frame.start, w)).2.eps[w.eps.length]? = some e → e.unbound) ∧
      ((r.run queue m (Frame.start, w)).2.since w).any Event.isHandlePacket = false := by
    intro m hm
    interval_cases m <;>
    simp [ForwarderRequest.run, ForwarderRequest.step, Frame.start, newEndpoint_eq,
      deref_append_length, Stack.RegisterTransportEndpoint, Route.NICID, hr,
      update_append_length, World.emit, endpoint.Close, endpoint.unbound, World.since,
      Event.isHandlePacket]
  have all : ∀ n,
      (∀ e : endpoint,
        (r.run queue n (Frame.start, w)).2.eps[w.eps.length]? = some e → e.unbound) ∧
      ((r.run queue n (Frame.start, w)).2.since w).any Event.isHandlePacket = false := by
    intro n
    rcases Nat.lt_or_ge n 14 with hn | hn
    · exact key n (Nat.le_of_lt hn)
    · rw [run_ge_14 r queue w n hn]; exact key 14 (Nat.le_refl _)
  refine ⟨?_, ?_, ?_, ?_, ?_, ?_, fun n => (all n).1, fun n => (all n).2⟩ <;>
  simp [CreateEndpoint_of_error r queue w err hr, deref_append_length, since_append,
    Event.isClose]

/-- Witness of C2: the scenario's request on the world in which its flow
identifier is already registered; the registration fails with
RegistrationConflict. -/
theorem CreateEndpoint_failure_witness :
    (scenarioRequest.registration 9 busyWorld).1 = some Error.RegistrationConflict ∧
    (scenarioRequest.CreateEndpoint 9 busyWorld).1 = Except.error Error.RegistrationConflict ∧
    (scenarioRequest.CreateEndpoint 9 busyWorld).2.table = busyWorld.table :=
  ⟨by decide,
    (CreateEndpoint_failure scenarioRequest 9 busyWorld Error.RegistrationConflict
      (by decide)).1,
    (CreateEndpoint_failure scenarioRequest 9 busyWorld Error.RegistrationConflict
      (by decide)).2.1⟩

/-- C4: after a successful CreateEndpoint, the calls CreateEndpoint made
contain exactly one call of an endpoint's HandlePacket: on the new endpoint,
with the request's route, the request's flow identifier and the request's
payload; and the messages delivered to the new endpoint are that payload,
once. -/
theorem CreateEndpoint_replays_payload (r : ForwarderRequest) (queue : Queue) (w : World)
    (h : (r.registration queue w).1 = none) :
    (r.CreateEndpoint queue w).1 = Except.ok w.eps.length ∧
    ((r.CreateEndpoint queue w).2.since w).filter Event.isHandlePacket
      = [Event.handlePacket w.eps.length r.route r.ID r.vv] ∧
    ((r.CreateEndpoint queue w).2.deref w.eps.length).rcvList = [r.vv] := by
  obtain ⟨t, ht⟩ := registration_eq_none r queue w h
  rw [CreateEndpoint_of_ok r queue w t ht]
  simp [deref_append_length, since_append, Event.isHandlePacket, ForwarderRequest.ID]

/-- Witness of C4: the scenario's request on the empty world; the new endpoint
has received the two bytes of the datagram, once. -/
theorem CreateEndpoint_replays_payload_witness :
    (scenarioRequest.registration 7 emptyWorld).1 = none ∧
    ((scenarioRequest.CreateEndpoint 7 emptyWorld).2.deref 0).rcvList = [[104, 105]] :=
  ⟨by decide, (CreateEndpoint_replays_payload scenarioRequest 7 emptyWorld (by decide)).2.2⟩

/-- C7: in every state CreateEndpoint goes through in which its endpoint
exists, rcvReady is on only if the flow identifier, the route, the
destination port, the interface id and the state Connected are already bound;
when the flip (line 76) is about to run everything is bound and rcvReady is
still off, right after it rcvReady is on; when the hand-over of the payload
(line 79) is about to run rcvReady is on and nothing has been handed yet; and
whenever the payload has been handed, rcvReady is on.  On the success path
these program points are reached (after 8, 9 and 10 steps), and fourteen steps
of the step relation are CreateEndpoint. -/
theorem activation_order (r : ForwarderRequest) (queue : Queue) (w : World) (n : Nat) :
    (∀ e : endpoint, (r.run queue n (Frame.start, w)).2.eps[w.eps.length]? = some e →
      (e.rcvReady = true → e.boundTo r) ∧
      ((r.run queue n (Frame.start, w)).1.line = Line.L76 → e.boundTo r ∧ e.rcvReady = false) ∧
      ((r.run queue n (Frame.start, w)).1.line = Line.L77 → e.rcvReady = true) ∧
      ((r.run queue n (Frame.start, w)).1.line = Line.L79 → e.rcvReady = true ∧
        ((r.run queue n (Frame.start, w)).2.since w).any Event.isHandlePacket = false) ∧
      (((r.run queue n (Frame.start, w)).2.since w).any Event.isHandlePacket = true →
        e.rcvReady = true)) ∧
    ((r.registration queue w).1 = none →
      (r.run queue 2 (Frame.start, w)).1.line = Line.L68 ∧
      (r.run queue 8 (Frame.start, w)).1.line = Line.L76 ∧
      (r.run queue 9 (Frame.start, w)).1.line = Line.L77 ∧
      (r.run queue 10 (Frame.start, w)).1.line = Line.L79 ∧
      (r.run queue 12 (Frame.start, w)).1.result = some (Except.ok w.eps.length)) ∧
    (r.run queue 14 (Frame.start, w)).1.result = some (r.CreateEndpoint queue w).1 ∧
    (r.run queue 14 (Frame.start, w)).2 = (r.CreateEndpoint queue w).2 := by
  have key : ∀ m, m ≤ 14 →
      ∀ e : endpoint, (r.run queue m (Frame.start, w)).2.eps[w.eps.length]? = some e →
      (e.rcvReady = true → e.boundTo r) ∧
      ((r.run queue m (Frame.start, w)).1.line = Line.L76 → e.boundTo r ∧ e.rcvReady = false) ∧
      ((r.run queue m (Frame.start, w)).1.line = Line.L77 → e.rcvReady = true) ∧
      ((r.run queue m (Frame.start, w)).1.line = Line.L79 → e.rcvReady = true ∧
        ((r.run queue m (Frame.start, w)).2.since w).any Event.isHandlePacket = false) ∧
      (((r.run queue m (Frame.start, w)).2.since w).any Event.isHandlePacket = true →
        e.rcvReady = true) := by
    intro m hm
    cases h : r.stack.register w.table r.route.nicID [r.route.NetProto] ProtocolNumber r.id
      w.eps.length false with
    | ok t =>
      interval_cases m <;>
      simp [ForwarderRequest.run, ForwarderRequest.step, Frame.start, newEndpoint_eq,
        deref_append_length, Stack.RegisterTransportEndpoint, Route.NICID, h,
        update_append_length, Route.Clone, World.emit, endpoint.HandlePacket, endpoint.boundTo,
        World.since, Event.isHandlePacket]
    | error err =>
      interval_cases m <;>
      simp [ForwarderRequest.run, ForwarderRequest.step, Frame.start, newEndpoint_eq,
        deref_append_length, Stack.RegisterTransportEndpoint, Route.NICID, h,
        update_append_length, World.emit, endpoint.Close, endpoint.boundTo,
        World.since, Event.isHandlePacket]
  refine ⟨?_, ?_, run_14_eq_CreateEndpoint r queue w⟩
  · rcases Nat.lt_or_ge n 14 with hn | hn
    · exact key n (Nat.le_of_lt hn)
    · rw [run_ge_14 r queue w n hn]; exact key 14 (Nat.le_refl _)
  · intro h
    obtain ⟨t, ht⟩ := registration_eq_none r queue w h
    simp [ForwarderRequest.run, ForwarderRequest.step, Frame.start, newEndpoint_eq,
        deref_append_length, Stack.RegisterTransportEndpoint, Route.NICID, ht,
        update_append_length, Route.Clone, World.emit, endpoint.HandlePacket, Frame.result]

/-- C10: every CreateEndpoint call logs exactly one registration attempt: for
the endpoint newly allocated by line 62 for the request route's network
protocol (a reference that did not exist before), under the route's NIC id,
the singleton list of the route's network protocol, the UDP protocol number,
the request's flow identifier and the new endpoint's own reusePort flag.  The
attempt is the second statement of the call, run in the world right after the
allocation, where no field of the endpoint is bound and no attempt has been
logged; right after the attempt the endpoint still has no field bound. -/
theorem CreateEndpoint_registers_once (r : ForwarderRequest) (queue : Queue) (w : World) :
    r.run queue 1 (Frame.start, w)
      = ({ line := Line.L63, ep := w.eps.length, err := none },
          (newEndpoint r.stack r.route.NetProto queue w).2) ∧
    (newEndpoint r.stack r.route.NetProto queue w).1 = w.eps.length ∧
    w.eps[w.eps.length]? = none ∧
    ((newEndpoint r.stack r.route.NetProto queue w).2.deref w.eps.length).netProto
      = r.route.NetProto ∧
    ((newEndpoint r.stack r.route.NetProto queue w).2.deref w.eps.length).unbound ∧
    ((newEndpoint r.stack r.route.NetProto queue w).2.since w).any Event.isRegister = false ∧
    (r.run queue 2 (Frame.start, w)).2 = (r.registration queue w).2 ∧
    ((r.registration queue w).2.deref w.eps.length).unbound ∧
    ((r.CreateEndpoint queue w).2.since w).filter Event.isRegister
      = [Event.register r.route.NICID [r.route.NetProto] ProtocolNumber r.ID w.eps.length
          ((newEndpoint r.stack r.route.NetProto queue w).2.deref w.eps.length).reusePort
          (r.registration queue w).1] := by
  cases h : r.stack.register w.table r.route.nicID [r.route.NetProto] ProtocolNumber r.id
      w.eps.length false with
  | ok t =>
    rw [CreateEndpoint_of_ok r queue w t h]
    simp [ForwarderRequest.run, ForwarderRequest.step, Frame.start, newEndpoint_eq,
        deref_append_length, Stack.RegisterTransportEndpoint, Route.NICID, h,
        World.emit, endpoint.unbound, since_append, ForwarderRequest.registration,
        World.since, Event.isRegister, ForwarderRequest.ID]
  | error err =>
    rw [CreateEndpoint_of_error r queue w err h]
    simp [ForwarderRequest.run, ForwarderRequest.step, Frame.start, newEndpoint_eq,
        deref_append_length, Stack.RegisterTransportEndpoint, Route.NICID, h,
        World.emit, endpoint.unbound, since_append, ForwarderRequest.registration,
        World.since, Event.isRegister, ForwarderRequest.ID]

/-- C5: HandlePacket returns true for every forwarder (whatever its handler
does to the world), route, flow identifier and payload. -/
theorem HandlePacket_returns_true (f : Forwarder) (r : Route) (id : TransportEndpointID)
    (vv : VectorisedView) (w : World) :
    (f.HandlePacket r id vv w).1 = true := rfl

/-- C6: HandlePacket on the forwarder built by NewForwarder returns true in the
world obtained by applying the handler once to the world it was called in,
with the request made of the forwarder's stack and the given route, flow
identifier and payload; ID of that request is the given flow identifier, and
ID of any request is its id field and nothing else (it returns no changed
request). -/
theorem HandlePacket_invokes_handler (s : Stack) (handler : ForwarderRequest → World → World)
    (r : Route) (id : TransportEndpointID) (vv : VectorisedView) (w : World) :
    (NewForwarder s handler).HandlePacket r id vv w
      = (true, handler { stack := s, route := r, id := id, vv := vv } w) ∧
    (NewForwarder s handler).stack = s ∧
    ForwarderRequest.ID { stack := s, route := r, id := id, vv := vv } = id ∧
    (∀ req : ForwarderRequest, req.ID = req.id) :=
  ⟨rfl, rfl, rfl, fun _ => rfl⟩

/-- C8: when the decision callback ignores the request (it does not call
CreateEndpoint), HandlePacket returns true and leaves the world as it was: the
dispatch table is the one before the call, the endpoint store is the one
before the call (no endpoint allocated), and no call to a collaborator has
been logged (no registration).  The forwarder is a value HandlePacket only
reads. -/
theorem HandlePacket_ignore_no_effect (s : Stack) (p : ForwarderRequest → Decision)
    (r : Route) (id : TransportEndpointID) (vv : VectorisedView) (w : World)
    (h : p { stack := s, route := r, id := id, vv := vv } = Decision.ignore) :
    (NewForwarder s (policy p)).HandlePacket r id vv w = (true, w) ∧
    ((NewForwarder s (policy p)).HandlePacket r id vv w).2.table = w.table ∧
    ((NewForwarder s (policy p)).HandlePacket r id vv w).2.eps = w.eps ∧
    ((NewForwarder s (policy p)).HandlePacket r id vv w).2.since w = [] ∧
    (NewForwarder s (policy p)).stack = s ∧
    (NewForwarder s (policy p)).handler = policy p := by
  have e : (NewForwarder s (policy p)).HandlePacket r id vv w = (true, w) := by
    simp [Forwarder.HandlePacket, NewForwarder, policy, h, Decision.run]
  rw [e]
  simp [World.since, NewForwarder]

/-- Witness of C8: the ignore-all policy on the scenario's datagram, in the
world where the flow is already registered. -/
theorem HandlePacket_ignore_no_effect_witness :
    (NewForwarder atomicStack (policy (fun _ => Decision.ignore))).HandlePacket
      scenarioRoute scenarioID [104, 105] busyWorld = (true, busyWorld) :=
  (HandlePacket_ignore_no_effect atomicStack (fun _ => Decision.ignore)
    scenarioRoute scenarioID [104, 105] busyWorld rfl).1

/-- C3: on the atomic insert-or-fail table, for a request whose flow
identifier is not yet claimed under the UDP protocol number, the first
CreateEndpoint succeeds with the new endpoint, a second CreateEndpoint on the
same request made right after it fails with RegistrationConflict, and the
table then is the table before plus the entry of the first endpoint, which is
the only entry under that key. -/
theorem CreateEndpoint_twice (r : ForwarderRequest) (q1 q2 : Queue) (w : World)
    (hs : r.stack = atomicStack) (h : claimed w.table ProtocolNumber r.ID = false) :
    (r.CreateEndpoint q1 w).1 = Except.ok w.eps.length ∧
    (r.CreateEndpoint q2 (r.CreateEndpoint q1 w).2).1
      = Except.error Error.RegistrationConflict ∧
    (r.CreateEndpoint q2 (r.CreateEndpoint q1 w).2).2.table
      = w.table ++ [r.entry w.eps.length] ∧
    (r.CreateEndpoint q2 (r.CreateEndpoint q1 w).2).2.table.filter
        (fun e => decide (e.protocol = ProtocolNumber ∧ e.id = r.ID))
      = [r.entry w.eps.length] := by
  have e1 := CreateEndpoint_of_ok r q1 w _ (atomic_register_fresh r w.table w.eps.length hs h)
  have h2 : claimed (r.CreateEndpoint q1 w).2.table ProtocolNumber r.id = true := by
    rw [e1]
    simp [claimed_append, ForwarderRequest.entry]
  have e2 := CreateEndpoint_of_error r q2 _ _
    (atomic_register_claimed r _ (r.CreateEndpoint q1 w).2.eps.length hs h2)
  rw [e2]
  rw [e1]
  have hf := not_claimed_forall w.table ProtocolNumber r.id h
  refine ⟨rfl, rfl, rfl, ?_⟩
  simp only [List.filter_append]
  have hz : w.table.filter
      (fun e => decide (e.protocol = ProtocolNumber ∧ e.id = r.ID)) = [] := by
    rw [List.filter_eq_nil_iff]
    intro a ha
    simpa [ForwarderRequest.ID] using hf a ha
  rw [hz]
  simp [ForwarderRequest.ID, ForwarderRequest.entry]

/-- Witness of C3: the scenario's request accepted twice, starting from the
empty world. -/
theorem CreateEndpoint_twice_witness :
    claimed emptyWorld.table ProtocolNumber scenarioRequest.ID = false ∧
    (scenarioRequest.CreateEndpoint 7 emptyWorld).1 = Except.ok 0 ∧
    (scenarioRequest.CreateEndpoint 9 (scenarioRequest.CreateEndpoint 7 emptyWorld).2).1
      = Except.error Error.RegistrationConflict :=
  ⟨by decide, (CreateEndpoint_twice scenarioRequest 7 9 emptyWorld rfl (by decide)).1,
    (CreateEndpoint_twice scenarioRequest 7 9 emptyWorld rfl (by decide)).2.1⟩

/-! ## Concurrent calls: what one statement does -/

theorem deref_update (w : World) (ep ep' : EpRef) (g : endpoint → endpoint) :
    (w.update ep g).deref ep' =
      if ep' = ep ∧ ep < w.eps.length then g (w.deref ep) else w.deref ep' := by
  simp only [World.update, World.deref, List.getD_eq_getElem?_getD, List.getElem?_modify]
  by_cases h : ep' = ep
  · subst h
    by_cases h2 : ep' < w.eps.length
    · simp [h2, List.getElem?_eq_getElem h2]
    · simp [h2, List.getElem?_eq_none (Nat.le_of_not_lt h2)]
  · have h' : ¬ ep = ep' := fun e => h e.symm
    simp [h, h']

theorem deref_update_ne (w : World) (ep ep' : EpRef) (g : endpoint → endpoint) (h : ep' ≠ ep) :
    (w.update ep g).deref ep' = w.deref ep' := by
  simp [deref_update, h]

theorem deref_update_reusePort (w : World) (ep ep' : EpRef) (g : endpoint → endpoint)
    (hg : ∀ e, (g e).reusePort = e.reusePort) :
    ((w.update ep g).deref ep').reusePort = (w.deref ep').reusePort := by
  rw [deref_update]
  split
  · rename_i h; rw [hg, h.1]
  · rfl

theorem deref_emit (w : World) (e : Event) (ep : EpRef) : (w.emit e).deref ep = w.deref ep :=
  rfl

theorem deref_ge_length (w : World) (ep : EpRef) (h : w.eps.length ≤ ep) :
    w.deref ep = default := by
  simp [World.deref, List.getElem?_eq_none h]

theorem step_L63_ok (r : ForwarderRequest) (q : Queue) (f : Frame) (w : World) (t : Table)
    (h : f.line = Line.L63)
    (hr : r.stack.register w.table r.route.NICID [r.route.NetProto] ProtocolNumber r.id f.ep
      (w.deref f.ep).reusePort = Except.ok t) :
    r.step q f w = ({ line := Line.L68, ep := f.ep, err := f.err },
      { eps := w.eps, table := t,
        trace := w.trace ++ [Event.register r.route.NICID [r.route.NetProto] ProtocolNumber
          r.id f.ep (w.deref f.ep).reusePort none] }) := by
  simp [ForwarderRequest.step, h, Stack.RegisterTransportEndpoint, hr]

theorem step_L63_error (r : ForwarderRequest) (q : Queue) (f : Frame) (w : World)
    (err : Error) (h : f.line = Line.L63)
    (hr : r.stack.register w.table r.route.NICID [r.route.NetProto] ProtocolNumber r.id f.ep
      (w.deref f.ep).reusePort = Except.error err) :
    r.step q f w = ({ line := Line.L64, ep := f.ep, err := some err },
      w.emit (Event.register r.route.NICID [r.route.NetProto] ProtocolNumber
          r.id f.ep (w.deref f.ep).reusePort (some err))) := by
  simp [ForwarderRequest.step, h, Stack.RegisterTransportEndpoint, hr]

theorem step_L63_cases (r : ForwarderRequest) (q : Queue) (f : Frame) (w : World)
    (h : f.line = Line.L63) :
    (∃ t, r.step q f w = ({ line := Line.L68, ep := f.ep, err := f.err },
      { eps := w.eps, table := t,
        trace := w.trace ++ [Event.register r.route.NICID [r.route.NetProto] ProtocolNumber
          r.id f.ep (w.deref f.ep).reusePort none] })) ∨
    (∃ err, r.step q f w = ({ line := Line.L64, ep := f.ep, err := some err },
      w.emit (Event.register r.route.NICID [r.route.NetProto] ProtocolNumber
          r.id f.ep (w.deref f.ep).reusePort (some err)))) := by
  cases hr : r.stack.register w.table r.route.NICID [r.route.NetProto] ProtocolNumber r.id f.ep
      (w.deref f.ep).reusePort with
  | ok t => exact Or.inl ⟨t, step_L63_ok r q f w t h hr⟩
  | error err => exact Or.inr ⟨err, step_L63_error r q f w err h hr⟩

theorem step_ep (r : ForwarderRequest) (q : Queue) (f : Frame) (w : World)
    (h : f.line ≠ Line.L62) : (r.step q f w).1.ep = f.ep := by
  by_cases h63 : f.line = Line.L63
  · rcases step_L63_cases r q f w h63 with ⟨t, e⟩ | ⟨err, e⟩ <;> rw [e]
  · cases hl : f.line <;> simp [ForwarderRequest.step, hl] at h h63 ⊢

theorem step_err (r : ForwarderRequest) (q : Queue) (f : Frame) (w : World)
    (h : f.line ≠ Line.L63) : (r.step q f w).1.err = f.err := by
  cases hl : f.line <;> simp [ForwarderRequest.step, hl, newEndpoint] at h ⊢

theorem step_L62 (r : ForwarderRequest) (q : Queue) (f : Frame) (w : World)
    (h : f.line = Line.L62) :
    (r.step q f w).1 = { line := Line.L63, ep := w.eps.length, err := f.err } ∧
    (r.step q f w).2.eps.length = w.eps.length + 1 := by
  simp [ForwarderRequest.step, h, newEndpoint]

theorem step_length (r : ForwarderRequest) (q : Queue) (f : Frame) (w : World)
    (h : f.line ≠ Line.L62) : (r.step q f w).2.eps.length = w.eps.length := by
  by_cases h63 : f.line = Line.L63
  · rcases step_L63_cases r q f w h63 with ⟨t, e⟩ | ⟨err, e⟩
    · rw [e]
    · rw [e]; rfl
  · cases hl : f.line <;>
      simp [ForwarderRequest.step, hl, World.update, World.emit, endpoint.Close, Route.Clone,
        endpoint.HandlePacket] at h h63 ⊢
    split <;> simp

theorem step_table (r : ForwarderRequest) (q : Queue) (f : Frame) (w : World)
    (h : f.line ≠ Line.L63) : (r.step q f w).2.table = w.table := by
  cases hl : f.line <;>
    simp [ForwarderRequest.step, hl, World.update, World.emit, endpoint.Close, Route.Clone,
      endpoint.HandlePacket, newEndpoint] at h ⊢
  split <;> simp

theorem step_line_left (r : ForwarderRequest) (q : Queue) (f : Frame) (w : World) :
    (r.step q f w).1.line.left ≤ f.line.left - 1 := by
  by_cases h63 : f.line = Line.L63
  · rcases step_L63_cases r q f w h63 with ⟨t, e⟩ | ⟨err, e⟩ <;> rw [e] <;>
      simp [h63, Line.left]
  · cases hl : f.line <;> simp [ForwarderRequest.step, hl, Line.left] at h63 ⊢

theorem step_line_ne_L62 (r : ForwarderRequest) (q : Queue) (f : Frame) (w : World) :
    f.line = Line.L62 ∨ (r.step q f w).1.line ≠ Line.L62 := by
  by_cases h63 : f.line = Line.L63
  · rcases step_L63_cases r q f w h63 with ⟨t, e⟩ | ⟨err, e⟩ <;> rw [e] <;> simp
  · cases hl : f.line <;> simp [ForwarderRequest.step, hl] at h63 ⊢

theorem step_reusePort (r : ForwarderRequest) (q : Queue) (f : Frame) (w : World) (ep : EpRef) :
    ((r.step q f w).2.deref ep).reusePort = (w.deref ep).reusePort := by
  by_cases h63 : f.line = Line.L63
  · rcases step_L63_cases r q f w h63 with ⟨t, e⟩ | ⟨err, e⟩ <;> rw [e] <;> rfl
  · cases hl : f.line <;>
      simp only [ForwarderRequest.step, hl, endpoint.Close, Route.Clone, endpoint.HandlePacket,
        deref_emit] at h63 ⊢
    · rcases Nat.lt_trichotomy ep w.eps.length with h | h | h
      · simp [newEndpoint, World.deref, List.getElem?_append_left h]
      · subst h
        simp [newEndpoint, World.deref]
        rfl
      · simp [newEndpoint, World.deref, List.getElem?_eq_none (Nat.le_of_lt h)]
        rw [List.getElem?_eq_none (by simp; omega)]
        rfl
    all_goals first
      | exact absurd trivial h63
      | rfl
      | exact deref_update_reusePort _ _ _ _ (fun _ => rfl)
      | (split
         · exact deref_update_reusePort _ _ _ _ (fun _ => rfl)
         · rfl)

theorem step_deref_other (r : ForwarderRequest) (q : Queue) (f : Frame) (w : World)
    (ep : EpRef) (h : f.line ≠ Line.L62) (hne : ep ≠ f.ep) :
    (r.step q f w).2.deref ep = w.deref ep := by
  by_cases h63 : f.line = Line.L63
  · rcases step_L63_cases r q f w h63 with ⟨t, e⟩ | ⟨err, e⟩ <;> rw [e] <;> rfl
  · cases hl : f.line <;>
      simp only [ForwarderRequest.step, hl, endpoint.Close, Route.Clone, endpoint.HandlePacket,
        deref_emit] at h h63 ⊢
    all_goals first
      | exact absurd rfl h
      | exact absurd trivial h63
      | rfl
      | exact deref_update_ne _ _ _ _ hne
      | (split
         · exact deref_update_ne _ _ _ _ hne
         · rfl)

theorem step_L62_deref (r : ForwarderRequest) (q : Queue) (f : Frame) (w : World)
    (ep : EpRef) (h : f.line = Line.L62) (hlt : ep < w.eps.length) :
    (r.step q f w).2.deref ep = w.deref ep := by
  simp [ForwarderRequest.step, h, newEndpoint, World.deref, List.getElem?_append_left hlt]

theorem step_closed (r : ForwarderRequest) (q : Queue) (f : Frame) (w : World)
    (h : f.line = Line.L64) (hlt : f.ep < w.eps.length) :
    (r.step q f w).1.line = Line.L65 ∧
    ((r.step q f w).2.deref f.ep).state = endpointState.stateClosed := by
  simp [ForwarderRequest.step, h, endpoint.Close, deref_emit, deref_update, hlt]

theorem step_world_fixed (r : ForwarderRequest) (q : Queue) (f : Frame) (w : World)
    (h : f.line = Line.L65 ∨ f.line = Line.Ret) : (r.step q f w).2 = w := by
  rcases h with h | h <;> simp [ForwarderRequest.step, h]

theorem step_wf_won (r : ForwarderRequest) (q : Queue) (f : Frame) (w : World)
    (h : f.line ≠ Line.L63) (hw : f.wf) :
    (r.step q f w).1.wf ∧ ((r.step q f w).1.won ↔ f.won) := by
  cases hl : f.line <;>
    simp [ForwarderRequest.step, hl, newEndpoint, Frame.wf, Frame.won] at h hw ⊢ <;>
    simp [hw]

theorem step_lost_origin (r : ForwarderRequest) (q : Queue) (f : Frame) (w : World)
    (hw : f.wf) (he : (r.step q f w).1.err ≠ none)
    (hl : (r.step q f w).1.line = Line.L65 ∨ (r.step q f w).1.line = Line.Ret) :
    f.line = Line.L64 ∨ ((f.line = Line.L65 ∨ f.line = Line.Ret) ∧ f.err ≠ none) := by
  by_cases h63 : f.line = Line.L63
  · rcases step_L63_cases r q f w h63 with ⟨t, e⟩ | ⟨err, e⟩ <;> rw [e] at hl <;> simp at hl
  · cases hl' : f.line <;>
      simp [ForwarderRequest.step, hl', newEndpoint, Frame.wf] at h63 hw he hl ⊢ <;>
      simp_all

theorem step_L63_atomic (r : ForwarderRequest) (q : Queue) (f : Frame) (w : World)
    (hs : r.stack = atomicStack) (h : f.line = Line.L63)
    (hf : (w.deref f.ep).reusePort = false) :
    (claimed w.table ProtocolNumber r.id = false ∧
      (r.step q f w).1 = { line := Line.L68, ep := f.ep, err := f.err } ∧
      (r.step q f w).2.table = w.table ++ [r.entry f.ep]) ∨
    (claimed w.table ProtocolNumber r.id = true ∧
      (r.step q f w).1 = { line := Line.L64, ep := f.ep, err := some Error.RegistrationConflict } ∧
      (r.step q f w).2.table = w.table) := by
  cases hc : claimed w.table ProtocolNumber r.id with
  | false =>
    refine Or.inl ⟨rfl, ?_⟩
    have hr := atomic_register_fresh r w.table f.ep hs hc
    rw [step_L63_ok r q f w _ h (by rw [hf]; exact hr)]
    exact ⟨rfl, rfl⟩
  | true =>
    refine Or.inr ⟨rfl, ?_⟩
    have hr := atomic_register_claimed r w.table f.ep hs hc
    rw [step_L63_error r q f w _ h (by rw [hf]; exact hr)]
    exact ⟨rfl, rfl⟩

theorem step_length_le (r : ForwarderRequest) (q : Queue) (f : Frame) (w : World) :
    w.eps.length ≤ (r.step q f w).2.eps.length := by
  by_cases h : f.line = Line.L62
  · rw [(step_L62 r q f w h).2]; exact Nat.le_succ _
  · rw [step_length r q f w h]

/-! ## Concurrent calls: the invariant -/

theorem stepAt_none (s : System) (i : Nat) (h : s.calls[i]? = none) : s.stepAt i = s := by
  simp [System.stepAt, h]

theorem stepAt_some (s : System) (i : Nat) (c : Call) (h : s.calls[i]? = some c) :
    s.stepAt i =
      { calls := s.calls.set i { c with frame := (c.req.step c.queue c.frame s.world).1 },
        world := (c.req.step c.queue c.frame s.world).2 } := by
  simp [System.stepAt, h]

theorem stepAt_get (s : System) (i j : Nat) (c cj : Call) (h : s.calls[i]? = some c)
    (hj : (s.stepAt i).calls[j]? = some cj) :
    (j = i ∧ cj = { c with frame := (c.req.step c.queue c.frame s.world).1 }) ∨
    (j ≠ i ∧ s.calls[j]? = some cj) := by
  rw [stepAt_some s i c h] at hj
  simp only [List.getElem?_set] at hj
  by_cases e : i = j
  · subst e
    left
    rw [if_pos rfl] at hj
    split at hj
    · exact ⟨rfl, (Option.some.inj hj).symm⟩
    · cases hj
  · right
    rw [if_neg e] at hj
    exact ⟨fun x => e x.symm, hj⟩

theorem stepAt_get_self (s : System) (i : Nat) (c : Call) (h : s.calls[i]? = some c) :
    (s.stepAt i).calls[i]? = some { c with frame := (c.req.step c.queue c.frame s.world).1 } := by
  rw [stepAt_some s i c h]
  have hlt : i < s.calls.length := by
    rcases Nat.lt_or_ge i s.calls.length with h' | h'
    · exact h'
    · rw [List.getElem?_eq_none h'] at h; cases h
  simp [List.getElem?_set, hlt]

theorem stepAt_get_ne (s : System) (i j : Nat) (hne : j ≠ i) :
    (s.stepAt i).calls[j]? = s.calls[j]? := by
  cases h : s.calls[i]? with
  | none => rw [stepAt_none s i h]
  | some c =>
    rw [stepAt_some s i c h]
    have e : ¬ i = j := fun x => hne x.symm
    simp only [List.getElem?_set, if_neg e]

theorem stepAt_world (s : System) (i : Nat) (c : Call) (h : s.calls[i]? = some c) :
    (s.stepAt i).world = (c.req.step c.queue c.frame s.world).2 := by
  rw [stepAt_some s i c h]

theorem default_reusePort : (default : endpoint).reusePort = false := rfl

theorem Inv_init (id : TransportEndpointID) (w : World)
    (reqs : List (ForwarderRequest × Queue))
    (hreq : ∀ rq ∈ reqs, rq.1.stack = atomicStack ∧ rq.1.id = id) :
    Inv id w (System.init reqs w) := by
  have hget : ∀ (j : Nat) (c : Call), (System.init reqs w).calls[j]? = some c →
      c.frame = Frame.start ∧ ∃ rq ∈ reqs, c.req = rq.1 := by
    intro j c h
    simp only [System.init, List.getElem?_map] at h
    cases hq : reqs[j]? with
    | none => rw [hq] at h; cases h
    | some rq =>
      rw [hq] at h
      have := (Option.some.inj h).symm
      subst this
      exact ⟨rfl, rq, List.getElem?_mem hq, rfl⟩
  refine ⟨?_, ?_, ?_, ?_, ?_, ?_, ?_, ?_, ?_⟩
  · intro j c h
    obtain ⟨_, rq, hm, e⟩ := hget j c h
    rw [e]; exact hreq rq hm
  · intro j c h
    rw [(hget j c h).1]
    exact Or.inl ⟨rfl, by decide, by decide⟩
  · intro j c h hl
    rw [(hget j c h).1] at hl
    exact absurd rfl hl
  · intro i j ci cj hi _ _ hl
    rw [(hget i ci hi).1] at hl
    exact absurd rfl hl
  · intro ep h
    show (w.deref ep).reusePort = false
    rw [deref_ge_length w ep h]
    rfl
  · exact Nat.le_refl _
  · left
    refine ⟨rfl, ?_⟩
    intro j c h
    rw [(hget j c h).1]
    exact ⟨fun hw => hw.2.1 rfl, rfl⟩
  · intro j c h he
    rw [(hget j c h).1] at he
    exact absurd rfl he
  · intro j c h hl
    rw [(hget j c h).1] at hl
    exact absurd rfl hl

theorem wf_err_none (f : Frame) (hw : f.wf) (h : f.line ≠ Line.L64) (h' : f.line ≠ Line.L65)
    (h'' : f.line ≠ Line.Ret) : f.err = none := by
  rcases hw with ⟨e, _⟩ | ⟨_, l | l | l⟩
  · exact e
  · exact absurd l h
  · exact absurd l h'
  · exact absurd l h''

theorem claimed_entry (t : Table) (r : ForwarderRequest) (ep : EpRef) :
    claimed (t ++ [r.entry ep]) ProtocolNumber r.id = true := by
  simp [claimed_append, ForwarderRequest.entry]

theorem Inv_stepAt (id : TransportEndpointID) (w0 : World) (s : System) (i : Nat)
    (hfresh : claimed w0.table ProtocolNumber id = false) (inv : Inv id w0 s) :
    Inv id w0 (s.stepAt i) := by
  cases hc : s.calls[i]? with
  | none => rw [stepAt_none s i hc]; exact inv
  | some c =>
    have hw := stepAt_world s i c hc
    have hreq := inv.reqs i c hc
    have hwf := inv.wf i c hc
    have hflag : c.frame.line ≠ Line.L62 → (s.world.deref c.frame.ep).reusePort = false :=
      fun h => inv.flag _ (inv.fresh i c hc h)
    have hlen := step_length_le c.req c.queue c.frame s.world
    have h63 : c.frame.line = Line.L63 →
        (claimed s.world.table ProtocolNumber c.req.id = false ∧
          (c.req.step c.queue c.frame s.world).1
            = { line := Line.L68, ep := c.frame.ep, err := none } ∧
          (c.req.step c.queue c.frame s.world).2.table
            = s.world.table ++ [c.req.entry c.frame.ep]) ∨
        (claimed s.world.table ProtocolNumber c.req.id = true ∧
          (c.req.step c.queue c.frame s.world).1
            = { line := Line.L64, ep := c.frame.ep, err := some Error.RegistrationConflict } ∧
          (c.req.step c.queue c.frame s.world).2.table = s.world.table) := by
      intro h
      have he : c.frame.err = none :=
        wf_err_none c.frame hwf (by rw [h]; decide) (by rw [h]; decide) (by rw [h]; decide)
      have := step_L63_atomic c.req c.queue c.frame s.world hreq.1 h
        (hflag (by rw [h]; decide))
      rw [he] at this
      exact this
    have hwf' : (c.req.step c.queue c.frame s.world).1.wf := by
      by_cases h : c.frame.line = Line.L63
      · rcases h63 h with ⟨_, e, _⟩ | ⟨_, e, _⟩ <;> rw [e]
        · exact Or.inl ⟨rfl, by simp, by simp⟩
        · exact Or.inr ⟨rfl, Or.inl rfl⟩
      · exact (step_wf_won c.req c.queue c.frame s.world h hwf).1
    have hep : c.frame.line ≠ Line.L62 →
        (c.req.step c.queue c.frame s.world).1.ep = c.frame.ep :=
      step_ep c.req c.queue c.frame s.world
    refine ⟨?_, ?_, ?_, ?_, ?_, ?_, ?_, ?_, ?_⟩
    · -- reqs
      intro j cj hj
      rcases stepAt_get s i j c cj hc hj with ⟨_, rfl⟩ | ⟨_, hold⟩
      · exact hreq
      · exact inv.reqs j cj hold
    · -- wf
      intro j cj hj
      rcases stepAt_get s i j c cj hc hj with ⟨_, rfl⟩ | ⟨_, hold⟩
      · exact hwf'
      · exact inv.wf j cj hold
    · -- bound
      intro j cj hj hl
      rw [hw]
      rcases stepAt_get s i j c cj hc hj with ⟨_, rfl⟩ | ⟨_, hold⟩
      · by_cases h : c.frame.line = Line.L62
        · have := step_L62 c.req c.queue c.frame s.world h
          show (c.req.step c.queue c.frame s.world).1.ep < _
          rw [this.1, this.2]
          exact Nat.lt_succ_self _
        · show (c.req.step c.queue c.frame s.world).1.ep < _
          rw [hep h, step_length c.req c.queue c.frame s.world h]
          exact inv.bound i c hc h
      · exact Nat.lt_of_lt_of_le (inv.bound j cj hold hl) hlen
    · -- distinct
      intro a b ca cb ha hb hab hla hlb
      rcases stepAt_get s i a c ca hc ha with ⟨rfl, rfl⟩ | ⟨hai, holda⟩
      · rcases stepAt_get s a b c cb hc hb with ⟨rfl, _⟩ | ⟨_, holdb⟩
        · exact absurd rfl hab
        · by_cases h : c.frame.line = Line.L62
          · show (c.req.step c.queue c.frame s.world).1.ep ≠ _
            rw [(step_L62 c.req c.queue c.frame s.world h).1]
            exact fun e => absurd (inv.bound b cb holdb hlb) (by rw [← e]; exact Nat.lt_irrefl _)
          · show (c.req.step c.queue c.frame s.world).1.ep ≠ _
            rw [hep h]
            exact inv.distinct a b c cb hc holdb hab h hlb
      · rcases stepAt_get s i b c cb hc hb with ⟨rfl, rfl⟩ | ⟨_, holdb⟩
        · by_cases h : c.frame.line = Line.L62
          · show _ ≠ (c.req.step c.queue c.frame s.world).1.ep
            rw [(step_L62 c.req c.queue c.frame s.world h).1]
            exact fun e => absurd (inv.bound a ca holda hla) (by rw [e]; exact Nat.lt_irrefl _)
          · show _ ≠ (c.req.step c.queue c.frame s.world).1.ep
            rw [hep h]
            exact inv.distinct a b ca c holda hc hab hla h
        · exact inv.distinct a b ca cb holda holdb hab hla hlb
    · -- flag
      intro ep h
      rw [hw, step_reusePort]
      exact inv.flag ep h
    · -- len
      rw [hw]
      exact Nat.le_trans inv.len hlen
    · -- table
      rw [hw]
      by_cases h : c.frame.line = Line.L63
      · have hnw : ¬ c.frame.won := fun x => x.2.2 h
        rcases h63 h with ⟨hcl, e, et⟩ | ⟨hcl, e, et⟩
        · -- the key was unclaimed: this call wins
          rcases inv.table with ⟨ht, hall⟩ | ⟨i0, c0, h0, _, ht, _⟩
          · right
            refine ⟨i, _, stepAt_get_self s i c hc, ?_, ?_, ?_⟩
            · show (c.req.step c.queue c.frame s.world).1.won
              rw [e]
              exact ⟨rfl, by simp, by simp⟩
            · show _ = _ ++ [c.req.entry (c.req.step c.queue c.frame s.world).1.ep]
              rw [et, ht, e]
            · intro j cj hj hne
              rw [stepAt_get_ne s i j hne] at hj
              exact (hall j cj hj).1
          · exfalso
            rw [ht, hreq.2, ← (inv.reqs i0 c0 h0).2, claimed_entry] at hcl
            cases hcl
        · -- the key was claimed: this call loses
          rcases inv.table with ⟨ht, _⟩ | ⟨i0, c0, h0, hwon, ht, hothers⟩
          · exfalso
            rw [ht, hreq.2, hfresh] at hcl
            cases hcl
          · right
            have hi0 : i0 ≠ i := by
              intro x
              subst x
              rw [hc] at h0
              cases h0
              exact hnw hwon
            refine ⟨i0, c0, ?_, hwon, ?_, ?_⟩
            · rw [stepAt_get_ne s i i0 hi0]; exact h0
            · rw [et]; exact ht
            · intro j cj hj hne
              rcases stepAt_get s i j c cj hc hj with ⟨_, rfl⟩ | ⟨_, hold⟩
              · show ¬ (c.req.step c.queue c.frame s.world).1.won
                rw [e]
                exact fun x => by cases x.1
              · exact hothers j cj hold hne
      · have hst := step_wf_won c.req c.queue c.frame s.world h hwf
        have herr := step_err c.req c.queue c.frame s.world h
        rw [step_table c.req c.queue c.frame s.world h]
        rcases inv.table with ⟨ht, hall⟩ | ⟨i0, c0, h0, hwon, ht, hothers⟩
        · left
          refine ⟨ht, ?_⟩
          intro j cj hj
          rcases stepAt_get s i j c cj hc hj with ⟨_, rfl⟩ | ⟨_, hold⟩
          · exact ⟨fun x => (hall i c hc).1 (hst.2.mp x), herr.trans (hall i c hc).2⟩
          · exact hall j cj hold
        · right
          by_cases hi0 : i0 = i
          · subst hi0
            rw [hc] at h0
            cases h0
            refine ⟨i0, _, stepAt_get_self s i0 c hc, hst.2.mpr hwon, ?_, ?_⟩
            · show _ = _ ++ [c.req.entry (c.req.step c.queue c.frame s.world).1.ep]
              rw [hep hwon.2.1]
              exact ht
            · intro j cj hj hne
              rw [stepAt_get_ne s i0 j hne] at hj
              exact hothers j cj hj hne
          · refine ⟨i0, c0, ?_, hwon, ht, ?_⟩
            · rw [stepAt_get_ne s i i0 hi0]; exact h0
            · intro j cj hj hne
              rcases stepAt_get s i j c cj hc hj with ⟨rfl, rfl⟩ | ⟨_, hold⟩
              · exact fun x => hothers j c hc hne (hst.2.mp x)
              · exact hothers j cj hold hne
    · -- closed
      intro j cj hj he hl
      rw [hw]
      rcases stepAt_get s i j c cj hc hj with ⟨_, rfl⟩ | ⟨hne, hold⟩
      · rcases step_lost_origin c.req c.queue c.frame s.world hwf he hl with h64 | ⟨hl', he'⟩
        · have hne62 : c.frame.line ≠ Line.L62 := by rw [h64]; simp
          show ((c.req.step c.queue c.frame s.world).2.deref
            (c.req.step c.queue c.frame s.world).1.ep).state = _
          rw [hep hne62]
          exact (step_closed c.req c.queue c.frame s.world h64 (inv.bound i c hc hne62)).2
        · have hne62 : c.frame.line ≠ Line.L62 := by
            rcases hl' with x | x <;> rw [x] <;> simp
          show ((c.req.step c.queue c.frame s.world).2.deref
            (c.req.step c.queue c.frame s.world).1.ep).state = _
          rw [hep hne62, step_world_fixed c.req c.queue c.frame s.world hl']
          exact inv.closed i c hc he' hl'
      · have hne62 : cj.frame.line ≠ Line.L62 := by
          rcases hl with x | x <;> rw [x] <;> simp
        have hold' := inv.closed j cj hold he hl
        by_cases h : c.frame.line = Line.L62
        · rw [step_L62_deref c.req c.queue c.frame s.world _ h (inv.bound j cj hold hne62)]
          exact hold'
        · rw [step_deref_other c.req c.queue c.frame s.world _ h
            (inv.distinct j i cj c hold hc hne hne62 h)]
          exact hold'
    · -- fresh
      intro j cj hj hl
      rcases stepAt_get s i j c cj hc hj with ⟨_, rfl⟩ | ⟨_, hold⟩
      · by_cases h : c.frame.line = Line.L62
        · show _ ≤ (c.req.step c.queue c.frame s.world).1.ep
          rw [(step_L62 c.req c.queue c.frame s.world h).1]
          exact inv.len
        · show _ ≤ (c.req.step c.queue c.frame s.world).1.ep
          rw [hep h]
          exact inv.fresh i c hc h
      · exact inv.fresh j cj hold hl

theorem Inv_exec (id : TransportEndpointID) (w0 : World) (sched : List Nat) (s : System)
    (hfresh : claimed w0.table ProtocolNumber id = false) (inv : Inv id w0 s) :
    Inv id w0 (s.exec sched) := by
  induction sched generalizing s with
  | nil => exact inv
  | cons i rest ih => exact ih (s.stepAt i) (Inv_stepAt id w0 s i hfresh inv)

/-! ## Concurrent calls: every call returns -/

theorem exec_left (sched : List Nat) (s : System) (i : Nat) (c : Call)
    (h : s.calls[i]? = some c) :
    ∃ c', (s.exec sched).calls[i]? = some c' ∧
      c'.frame.line.left ≤ c.frame.line.left - sched.count i := by
  induction sched generalizing s c with
  | nil => exact ⟨c, h, by simp⟩
  | cons k rest ih =>
    by_cases hk : k = i
    · subst hk
      obtain ⟨c', h', hle⟩ := ih (s.stepAt k) _ (stepAt_get_self s k c h)
      refine ⟨c', h', ?_⟩
      have hs := step_line_left c.req c.queue c.frame s.world
      have hle' : c'.frame.line.left
          ≤ (c.req.step c.queue c.frame s.world).1.line.left - List.count k rest := hle
      rw [List.count_cons_self]
      omega
    · have hne : i ≠ k := fun x => hk x.symm
      obtain ⟨c', h', hle⟩ := ih (s.stepAt k) c (by rw [stepAt_get_ne s k i hne]; exact h)
      refine ⟨c', h', ?_⟩
      have hcnt : List.count i (k :: rest) = List.count i rest := by
        simp [List.count_cons, hk]
      rw [hcnt]
      exact hle

theorem exec_length (sched : List Nat) (s : System) :
    (s.exec sched).calls.length = s.calls.length := by
  induction sched generalizing s with
  | nil => rfl
  | cons k rest ih =>
    show ((s.stepAt k).exec rest).calls.length = _
    rw [ih]
    cases h : s.calls[k]? with
    | none => rw [stepAt_none s k h]
    | some c => rw [stepAt_some s k c h]; simp

theorem left_eq_zero (l : Line) (h : l.left = 0) : l = Line.Ret := by
  cases l <;> simp [Line.left] at h ⊢

theorem filter_length_unique {α : Type} (p : α → Bool) (l : List α) (i : Nat) (a : α)
    (h : l[i]? = some a) (hp : p a = true)
    (hu : ∀ (j : Nat) (b : α), l[j]? = some b → j ≠ i → p b = false) :
    (l.filter p).length = 1 := by
  induction l generalizing i with
  | nil => simp at h
  | cons x xs ih =>
    cases i with
    | zero =>
      simp at h
      subst h
      have hz : xs.filter p = [] := by
        rw [List.filter_eq_nil_iff]
        intro b hb
        obtain ⟨j, hj⟩ := List.getElem?_of_mem hb
        have := hu (j + 1) b (by simpa using hj) (by simp)
        simp [this]
      simp [List.filter_cons, hp, hz]
    | succ k =>
      have hx : p x = false := hu 0 x (by simp) (by simp)
      have := ih k (by simpa using h)
        (fun j b hj hne => hu (j + 1) b (by simpa using hj) (by simpa using hne))
      simp [List.filter_cons, hx, this]

theorem succeeded_iff (c : Call) (h : c.frame.line = Line.Ret) :
    c.succeeded = true ↔ c.frame.err = none := by
  simp only [Call.succeeded, Frame.result, h]
  cases c.frame.err <;> simp

theorem result_of_conflict (c : Call) (h : c.frame.line = Line.Ret)
    (he : c.frame.err = some Error.RegistrationConflict) :
    c.frame.result = some (Except.error Error.RegistrationConflict) := by
  simp [Frame.result, h, he]

theorem exec_requests (sched : List Nat) (s : System) :
    (s.exec sched).calls.map (fun c => (c.req, c.queue))
      = s.calls.map (fun c => (c.req, c.queue)) := by
  induction sched generalizing s with
  | nil => rfl
  | cons k rest ih =>
    show ((s.stepAt k).exec rest).calls.map _ = _
    rw [ih]
    cases h : s.calls[k]? with
    | none => rw [stepAt_none s k h]
    | some c =>
      apply List.ext_getElem?
      intro j
      simp only [List.getElem?_map]
      by_cases hj : j = k
      · subst hj
        rw [stepAt_get_self s j c h, h]
        rfl
      · rw [stepAt_get_ne s k j hj]

/-- C9, as amended: one or more concurrent CreateEndpoint calls on the atomic
insert-or-fail table, whose flow identifiers all are the same identifier, not
yet claimed in the table when the calls start, run under any schedule that
lets every call run twelve statements or more.  Then every call has returned;
exactly one call has succeeded; every other call has failed with
RegistrationConflict, the endpoint it allocated is closed, and no entry the
table has gained refers to that endpoint; the table is the table before plus
the one entry of the call that succeeded. -/
theorem concurrent_CreateEndpoint (rq : ForwarderRequest × Queue)
    (rest : List (ForwarderRequest × Queue)) (id : TransportEndpointID) (w : World)
    (sched : List Nat)
    (hreq : ∀ c ∈ rq :: rest, c.1.stack = atomicStack ∧ c.1.id = id)
    (hfresh : claimed w.table ProtocolNumber id = false)
    (hsched : ∀ i, i < (rq :: rest).length → 12 ≤ sched.count i) :
    ((System.init (rq :: rest) w).exec sched).calls.map (fun c => (c.req, c.queue))
      = rq :: rest ∧
    (∀ c ∈ ((System.init (rq :: rest) w).exec sched).calls, c.frame.line = Line.Ret) ∧
    (((System.init (rq :: rest) w).exec sched).calls.filter Call.succeeded).length = 1 ∧
    (∀ c ∈ ((System.init (rq :: rest) w).exec sched).calls, c.succeeded = false →
      c.frame.result = some (Except.error Error.RegistrationConflict) ∧
      w.eps.length ≤ c.frame.ep ∧
      (((System.init (rq :: rest) w).exec sched).world.deref c.frame.ep).state
        = endpointState.stateClosed ∧
      ∀ e ∈ ((System.init (rq :: rest) w).exec sched).world.table.drop w.table.length,
        e.ep ≠ c.frame.ep) ∧
    (∃ c ∈ ((System.init (rq :: rest) w).exec sched).calls, c.succeeded = true ∧
      ((System.init (rq :: rest) w).exec sched).world.table
        = w.table ++ [c.req.entry c.frame.ep]) := by
  have inv := Inv_exec id w sched _ hfresh (Inv_init id w (rq :: rest) hreq)
  generalize hs : (System.init (rq :: rest) w).exec sched = s at inv ⊢
  have hlen : s.calls.length = (rq :: rest).length := by
    rw [← hs, exec_length]; simp [System.init]
  have hret : ∀ (j : Nat) (c : Call), s.calls[j]? = some c → c.frame.line = Line.Ret := by
    intro j c hj
    have hjlt : j < (rq :: rest).length := by
      rcases Nat.lt_or_ge j s.calls.length with h | h
      · rw [← hlen]; exact h
      · rw [List.getElem?_eq_none h] at hj; cases hj
    have hinit : (System.init (rq :: rest) w).calls[j]?
        = some { req := ((rq :: rest)[j]).1, queue := ((rq :: rest)[j]).2,
                 frame := Frame.start } := by
      simp only [System.init, List.getElem?_map, List.getElem?_eq_getElem hjlt]
      rfl
    obtain ⟨c', hc', hle⟩ := exec_left sched (System.init (rq :: rest) w) j _ hinit
    rw [hs, hj] at hc'
    cases hc'
    have h12 := hsched j hjlt
    have : c.frame.line.left = 0 := by
      change c.frame.line.left ≤ 12 - List.count j sched at hle
      omega
    exact left_eq_zero _ this
  have hwon_of : ∀ (j : Nat) (c : Call), s.calls[j]? = some c →
      (c.succeeded = true ↔ c.frame.won) := by
    intro j c hj
    rw [succeeded_iff c (hret j c hj)]
    constructor
    · intro h; exact ⟨h, by rw [hret j c hj]; simp, by rw [hret j c hj]; simp⟩
    · intro h; exact h.1
  have h0 : ∃ c0, s.calls[0]? = some c0 := by
    have : 0 < s.calls.length := by rw [hlen]; simp
    exact ⟨s.calls[0], List.getElem?_eq_getElem this⟩
  obtain ⟨c0, hc0⟩ := h0
  have hwin : ∃ (i : Nat) (c : Call), s.calls[i]? = some c ∧ c.frame.won ∧
      s.world.table = w.table ++ [c.req.entry c.frame.ep] ∧
      ∀ (j : Nat) (cj : Call), s.calls[j]? = some cj → j ≠ i → ¬ cj.frame.won := by
    rcases inv.table with ⟨_, hall⟩ | h
    · exfalso
      have := hall 0 c0 hc0
      exact this.1 ((hwon_of 0 c0 hc0).mp ((succeeded_iff c0 (hret 0 c0 hc0)).mpr this.2))
    · exact h
  obtain ⟨i0, cw, hcw, hwon, htab, hothers⟩ := hwin
  have hfail : ∀ (j : Nat) (c : Call), s.calls[j]? = some c → j ≠ i0 →
      c.succeeded = false := by
    intro j c hj hne
    cases hsu : c.succeeded with
    | false => rfl
    | true => exact absurd ((hwon_of j c hj).mp hsu) (hothers j c hj hne)
  refine ⟨?_, ?_, ?_, ?_, ?_⟩
  · rw [← hs, exec_requests]
    simp [System.init, Function.comp_def]
  · intro c hc
    obtain ⟨j, hj⟩ := List.getElem?_of_mem hc
    exact hret j c hj
  · exact filter_length_unique Call.succeeded s.calls i0 cw hcw ((hwon_of i0 cw hcw).mpr hwon)
      hfail
  · intro c hc hsu
    obtain ⟨j, hj⟩ := List.getElem?_of_mem hc
    have hline := hret j c hj
    have hne : j ≠ i0 := by
      intro x
      subst x
      rw [hcw] at hj
      cases hj
      rw [(hwon_of j cw hcw).mpr hwon] at hsu
      cases hsu
    have herr : c.frame.err ≠ none := by
      intro x
      rw [(succeeded_iff c hline).mpr x] at hsu
      cases hsu
    have herr' : c.frame.err = some Error.RegistrationConflict := by
      rcases inv.wf j c hj with ⟨e, _⟩ | ⟨e, _⟩
      · exact absurd e herr
      · exact e
    have hne62 : c.frame.line ≠ Line.L62 := by rw [hline]; simp
    refine ⟨result_of_conflict c hline herr', inv.fresh j c hj hne62,
      inv.closed j c hj herr (Or.inr hline), ?_⟩
    intro e he
    rw [htab] at he
    simp at he
    subst he
    show cw.frame.ep ≠ c.frame.ep
    exact inv.distinct i0 j cw c hcw hj (fun x => hne x.symm) hwon.2.1 hne62
  · exact ⟨cw, List.getElem?_mem hcw, (hwon_of i0 cw hcw).mpr hwon, htab⟩

/-- Witness of C9 as amended: two calls for the scenario's flow taking turns,
started in the empty world. -/
theorem concurrent_CreateEndpoint_witness :
    claimed emptyWorld.table ProtocolNumber scenarioID = false ∧
    (((System.init [(scenarioRequest, 7), (scenarioRequest, 9)] emptyWorld).exec
      raceSchedule).calls.filter Call.succeeded).length = 1 :=
  ⟨by decide,
    (concurrent_CreateEndpoint (scenarioRequest, 7) [(scenarioRequest, 9)] scenarioID
      emptyWorld raceSchedule
      (by
        intro c hc
        simp only [List.mem_cons, List.mem_singleton, List.not_mem_nil, or_false] at hc
        rcases hc with rfl | rfl <;> exact ⟨rfl, rfl⟩)
      (by decide)
      (by
        intro i hi
        have hi2 : i < 2 := hi
        interval_cases i <;> decide)).2.2.1⟩

/-- Counterexample to C9 as stated: two concurrent calls whose flow identifiers
collide, started in the world where that flow identifier is already
registered.  Both calls return RegistrationConflict: no call succeeds. -/
theorem concurrent_CreateEndpoint_on_claimed_flow :
    claimed busyWorld.table ProtocolNumber scenarioID = true ∧
    ((raceSystem busyWorld).exec conflictSchedule).calls.map
        (fun c => (c.req.ID, c.frame.line, c.frame.err))
      = [(scenarioID, Line.Ret, some Error.RegistrationConflict),
         (scenarioID, Line.Ret, some Error.RegistrationConflict)] ∧
    (((raceSystem busyWorld).exec conflictSchedule).calls.filter Call.succeeded).length = 0 ∧
    ¬ (((raceSystem busyWorld).exec conflictSchedule).calls.filter Call.succeeded).length = 1 := by
  decide

end Netstack
